import Mathlib

/-!
# Display driver: font table, frame buffer and text pipeline

A shallow embedding of `components/display_driver/include/display_driver.hpp`.
Bytes (`uint8_t`) and words (`uint16_t`) are natural numbers; the range of a
machine integer is stated explicitly where it matters.

The header holds the constants, the pixel type, the static arrays and the font
table; these are transcribed from it. The member functions are declared there
without bodies, so each of them is modelled from the specification and its doc
comment says so. What the specification leaves open (byte order, rescaling
algorithm, slot table, wiring, transmitter) is a parameter of the model.
-/

set_option maxRecDepth 100000

namespace display_driver

/-- Number of LED strips, `constexpr uint8_t STRIPS_NUMBER = 7`. -/
abbrev STRIPS_NUMBER : Nat := 7

/-- Number of LEDs on one strip, `constexpr uint8_t STRIP_LEDS_NUMBER = 36`. -/
abbrev STRIP_LEDS_NUMBER : Nat := 36

/-- Display RGB pixel coded 8:8:8; every channel defaults to 0 as in the
member initialisers of `rgb888_pixel_t`. -/
structure rgb888_pixel_t where
  red : Nat := 0
  green : Nat := 0
  blue : Nat := 0
deriving DecidableEq, Repr

/-- The 2D array of 5x7 ASCII symbols, `ascii_tab_5x7_[256][7]`. The outer
index is the symbol code, the inner index the row from top to bottom. The
trailing comment of every row is the code the source writes next to it (the
row at index 0x47 carries the comment 0x37 in the source). -/
def ascii_tab_5x7_ : List (List Nat) := [
  [0x00, 0x00, 0x00, 0x00, 0x00, 0x00, 0x00], -- 0x00
  [0x00, 0x00, 0x00, 0x00, 0x00, 0x00, 0x00], -- 0x01
  [0x00, 0x00, 0x00, 0x00, 0x00, 0x00, 0x00], -- 0x02
  [0x00, 0x00, 0x00, 0x00, 0x00, 0x00, 0x00], -- 0x03
  [0x00, 0x00, 0x00, 0x00, 0x00, 0x00, 0x00], -- 0x04
  [0x00, 0x00, 0x00, 0x00, 0x00, 0x00, 0x00], -- 0x05
  [0x00, 0x00, 0x00, 0x00, 0x00, 0x00, 0x00], -- 0x06
  [0x00, 0x00, 0x00, 0x00, 0x00, 0x00, 0x00], -- 0x07
  [0x00, 0x00, 0x00, 0x00, 0x00, 0x00, 0x00], -- 0x08
  [0x00, 0x00, 0x00, 0x00, 0x00, 0x00, 0x00], -- 0x09
  [0x00, 0x00, 0x00, 0x00, 0x00, 0x00, 0x00], -- 0x0a
  [0x00, 0x00, 0x00, 0x00, 0x00, 0x00, 0x00], -- 0x0b
  [0x00, 0x00, 0x00, 0x00, 0x00, 0x00, 0x00], -- 0x0c
  [0x00, 0x00, 0x00, 0x00, 0x00, 0x00, 0x00], -- 0x0d
  [0x00, 0x00, 0x00, 0x00, 0x00, 0x00, 0x00], -- 0x0e
  [0x00, 0x00, 0x00, 0x00, 0x00, 0x00, 0x00], -- 0x0f
  [0x00, 0x00, 0x00, 0x00, 0x00, 0x00, 0x00], -- 0x10
  [0x00, 0x00, 0x00, 0x00, 0x00, 0x00, 0x00], -- 0x11
  [0x00, 0x00, 0x00, 0x00, 0x00, 0x00, 0x00], -- 0x12
  [0x00, 0x00, 0x00, 0x00, 0x00, 0x00, 0x00], -- 0x13
  [0x00, 0x00, 0x00, 0x00, 0x00, 0x00, 0x00], -- 0x14
  [0x00, 0x00, 0x00, 0x00, 0x00, 0x00, 0x00], -- 0x15
  [0x00, 0x00, 0x00, 0x00, 0x00, 0x00, 0x00], -- 0x16
  [0x00, 0x00, 0x00, 0x00, 0x00, 0x00, 0x00], -- 0x17
  [0x00, 0x00, 0x00, 0x00, 0x00, 0x00, 0x00], -- 0x18
  [0x00, 0x00, 0x00, 0x00, 0x00, 0x00, 0x00], -- 0x19
  [0x00, 0x00, 0x00, 0x00, 0x00, 0x00, 0x00], -- 0x1a
  [0x00, 0x00, 0x00, 0x00, 0x00, 0x00, 0x00], -- 0x1b
  [0x00, 0x00, 0x00, 0x00, 0x00, 0x00, 0x00], -- 0x1c
  [0x00, 0x00, 0x00, 0x00, 0x00, 0x00, 0x00], -- 0x1d
  [0x00, 0x00, 0x00, 0x00, 0x00, 0x00, 0x00], -- 0x1e
  [0x00, 0x00, 0x00, 0x00, 0x00, 0x00, 0x00], -- 0x1f
  [0x00, 0x00, 0x00, 0x00, 0x00, 0x00, 0x00], -- 0x20
  [0x04, 0x04, 0x04, 0x04, 0x04, 0x00, 0x04], -- 0x21
  [0x0a, 0x0a, 0x0a, 0x00, 0x00, 0x00, 0x00], -- 0x22
  [0x0a, 0x0a, 0x1f, 0x0a, 0x1f, 0x0a, 0x0a], -- 0x23
  [0x04, 0x0f, 0x14, 0x0e, 0x05, 0x1e, 0x04], -- 0x24
  [0x18, 0x19, 0x02, 0x04, 0x08, 0x13, 0x03], -- 0x25
  [0x0c, 0x12, 0x14, 0x08, 0x15, 0x12, 0x0d], -- 0x26
  [0x04, 0x04, 0x08, 0x00, 0x00, 0x00, 0x00], -- 0x27
  [0x02, 0x04, 0x08, 0x08, 0x08, 0x04, 0x02], -- 0x28
  [0x08, 0x04, 0x02, 0x02, 0x02, 0x04, 0x08], -- 0x29
  [0x00, 0x04, 0x15, 0x0e, 0x15, 0x04, 0x00], -- 0x2a
  [0x00, 0x04, 0x04, 0x1f, 0x04, 0x04, 0x00], -- 0x2b
  [0x00, 0x00, 0x00, 0x00, 0x0c, 0x04, 0x08], -- 0x2c
  [0x00, 0x00, 0x00, 0x1f, 0x00, 0x00, 0x00], -- 0x2d
  [0x00, 0x00, 0x00, 0x00, 0x00, 0x0c, 0x0c], -- 0x2e
  [0x00, 0x01, 0x02, 0x04, 0x08, 0x10, 0x00], -- 0x2f
  [0x0e, 0x11, 0x13, 0x15, 0x19, 0x11, 0x0e], -- 0x30
  [0x04, 0x0c, 0x04, 0x04, 0x04, 0x04, 0x0e], -- 0x31
  [0x0e, 0x11, 0x01, 0x02, 0x04, 0x08, 0x1f], -- 0x32
  [0x0e, 0x11, 0x01, 0x06, 0x01, 0x11, 0x0e], -- 0x33
  [0x02, 0x06, 0x0a, 0x12, 0x1f, 0x02, 0x02], -- 0x34
  [0x1f, 0x10, 0x1e, 0x01, 0x01, 0x11, 0x0e], -- 0x35
  [0x06, 0x08, 0x10, 0x1e, 0x11, 0x11, 0x0e], -- 0x36
  [0x1f, 0x01, 0x02, 0x04, 0x08, 0x08, 0x08], -- 0x37
  [0x0e, 0x11, 0x11, 0x0e, 0x11, 0x11, 0x0e], -- 0x38
  [0x0e, 0x11, 0x11, 0x0f, 0x01, 0x02, 0x0c], -- 0x39
  [0x00, 0x0c, 0x0c, 0x00, 0x0c, 0x0c, 0x00], -- 0x3a
  [0x00, 0x0c, 0x0c, 0x00, 0x0c, 0x04, 0x08], -- 0x3b
  [0x02, 0x04, 0x08, 0x10, 0x08, 0x04, 0x02], -- 0x3c
  [0x00, 0x00, 0x1f, 0x00, 0x1f, 0x00, 0x00], -- 0x3d
  [0x08, 0x04, 0x02, 0x01, 0x02, 0x04, 0x08], -- 0x3e
  [0x0e, 0x11, 0x01, 0x02, 0x04, 0x00, 0x04], -- 0x3f
  [0x0e, 0x11, 0x17, 0x15, 0x17, 0x10, 0x0f], -- 0x40
  [0x04, 0x0a, 0x11, 0x11, 0x1f, 0x11, 0x11], -- 0x41
  [0x1e, 0x11, 0x11, 0x1e, 0x11, 0x11, 0x1e], -- 0x42
  [0x0e, 0x11, 0x10, 0x10, 0x10, 0x11, 0x0e], -- 0x43
  [0x1c, 0x12, 0x11, 0x11, 0x11, 0x12, 0x1c], -- 0x44
  [0x1f, 0x10, 0x10, 0x1e, 0x10, 0x10, 0x1f], -- 0x45
  [0x1f, 0x10, 0x10, 0x1e, 0x10, 0x10, 0x10], -- 0x46
  [0x0e, 0x11, 0x10, 0x10, 0x13, 0x11, 0x0f], -- 0x37
  [0x11, 0x11, 0x11, 0x1f, 0x11, 0x11, 0x11], -- 0x48
  [0x0e, 0x04, 0x04, 0x04, 0x04, 0x04, 0x0e], -- 0x49
  [0x07, 0x02, 0x02, 0x02, 0x02, 0x12, 0x0c], -- 0x4a
  [0x11, 0x12, 0x14, 0x18, 0x14, 0x12, 0x11], -- 0x4b
  [0x10, 0x10, 0x10, 0x10, 0x10, 0x10, 0x1f], -- 0x4c
  [0x11, 0x1b, 0x15, 0x15, 0x11, 0x11, 0x11], -- 0x4d
  [0x11, 0x11, 0x19, 0x15, 0x13, 0x11, 0x11], -- 0x4e
  [0x0e, 0x11, 0x11, 0x11, 0x11, 0x11, 0x0e], -- 0x4f
  [0x1e, 0x11, 0x11, 0x1e, 0x10, 0x10, 0x10], -- 0x50
  [0x0e, 0x11, 0x11, 0x11, 0x15, 0x12, 0x0d], -- 0x51
  [0x1e, 0x11, 0x11, 0x1e, 0x14, 0x12, 0x11], -- 0x52
  [0x0e, 0x11, 0x10, 0x0e, 0x01, 0x11, 0x0e], -- 0x53
  [0x1f, 0x04, 0x04, 0x04, 0x04, 0x04, 0x04], -- 0x54
  [0x11, 0x11, 0x11, 0x11, 0x11, 0x11, 0x0e], -- 0x55
  [0x11, 0x11, 0x11, 0x11, 0x11, 0x0a, 0x04], -- 0x56
  [0x11, 0x11, 0x11, 0x15, 0x15, 0x0a, 0x0a], -- 0x57
  [0x11, 0x11, 0x0a, 0x04, 0x0a, 0x11, 0x11], -- 0x58
  [0x11, 0x11, 0x0a, 0x04, 0x04, 0x04, 0x04], -- 0x59
  [0x1f, 0x01, 0x02, 0x04, 0x08, 0x10, 0x1f], -- 0x5a
  [0x0e, 0x08, 0x08, 0x08, 0x08, 0x08, 0x0e], -- 0x5b
  [0x00, 0x10, 0x08, 0x04, 0x02, 0x01, 0x00], -- 0x5c
  [0x0e, 0x02, 0x02, 0x02, 0x02, 0x02, 0x0e], -- 0x5d
  [0x04, 0x0a, 0x11, 0x00, 0x00, 0x00, 0x00], -- 0x5e
  [0x00, 0x00, 0x00, 0x00, 0x00, 0x00, 0x1f], -- 0x5f
  [0x08, 0x04, 0x02, 0x00, 0x00, 0x00, 0x00], -- 0x60
  [0x00, 0x00, 0x0e, 0x01, 0x0f, 0x11, 0x0f], -- 0x61
  [0x10, 0x10, 0x16, 0x1c, 0x19, 0x11, 0x1e], -- 0x62
  [0x00, 0x00, 0x0e, 0x10, 0x10, 0x10, 0x0e], -- 0x63
  [0x01, 0x01, 0x0d, 0x07, 0x09, 0x09, 0x07], -- 0x64
  [0x00, 0x00, 0x0e, 0x11, 0x1f, 0x10, 0x0e], -- 0x65
  [0x06, 0x09, 0x08, 0x1c, 0x08, 0x08, 0x08], -- 0x66
  [0x00, 0x0f, 0x11, 0x11, 0x0f, 0x01, 0x0e], -- 0x67
  [0x10, 0x10, 0x16, 0x19, 0x11, 0x11, 0x11], -- 0x68
  [0x04, 0x00, 0x0c, 0x04, 0x04, 0x04, 0x0e], -- 0x69
  [0x02, 0x00, 0x06, 0x02, 0x02, 0x12, 0x0c], -- 0x6a
  [0x10, 0x10, 0x12, 0x14, 0x18, 0x14, 0x12], -- 0x6b
  [0x0c, 0x04, 0x04, 0x04, 0x04, 0x04, 0x0e], -- 0x6c
  [0x00, 0x00, 0x1a, 0x15, 0x15, 0x11, 0x11], -- 0x6d
  [0x00, 0x00, 0x16, 0x19, 0x11, 0x11, 0x11], -- 0x6e
  [0x00, 0x00, 0x0e, 0x11, 0x11, 0x11, 0x0e], -- 0x6f
  [0x00, 0x00, 0x1e, 0x11, 0x1e, 0x10, 0x10], -- 0x70
  [0x00, 0x00, 0x0e, 0x11, 0x0e, 0x01, 0x01], -- 0x71
  [0x00, 0x00, 0x16, 0x19, 0x10, 0x10, 0x10], -- 0x72
  [0x00, 0x00, 0x0e, 0x10, 0x0e, 0x01, 0x1e], -- 0x73
  [0x08, 0x08, 0x1c, 0x08, 0x08, 0x09, 0x06], -- 0x74
  [0x00, 0x00, 0x11, 0x11, 0x11, 0x13, 0x0d], -- 0x75
  [0x00, 0x00, 0x11, 0x11, 0x11, 0x0a, 0x04], -- 0x76
  [0x00, 0x00, 0x11, 0x11, 0x15, 0x15, 0x0a], -- 0x77
  [0x00, 0x00, 0x11, 0x0a, 0x04, 0x0a, 0x11], -- 0x78
  [0x00, 0x00, 0x11, 0x11, 0x0f, 0x01, 0x0e], -- 0x79
  [0x00, 0x00, 0x1f, 0x02, 0x04, 0x08, 0x1f], -- 0x7a
  [0x06, 0x08, 0x08, 0x10, 0x08, 0x08, 0x06], -- 0x7b
  [0x04, 0x04, 0x04, 0x04, 0x04, 0x04, 0x04], -- 0x7c
  [0x0c, 0x02, 0x02, 0x01, 0x02, 0x02, 0x0c], -- 0x7d
  [0x08, 0x15, 0x02, 0x00, 0x00, 0x00, 0x00], -- 0x7e
  [0x00, 0x00, 0x01, 0x02, 0x14, 0x08, 0x00], -- 0x7f
  [0x00, 0x00, 0x00, 0x00, 0x00, 0x00, 0x00], -- 0x80
  [0x00, 0x00, 0x00, 0x00, 0x00, 0x00, 0x00], -- 0x81
  [0x00, 0x00, 0x00, 0x00, 0x00, 0x00, 0x00], -- 0x82
  [0x00, 0x00, 0x00, 0x00, 0x00, 0x00, 0x00], -- 0x83
  [0x00, 0x00, 0x00, 0x00, 0x00, 0x00, 0x00], -- 0x84
  [0x00, 0x00, 0x00, 0x00, 0x00, 0x00, 0x00], -- 0x85
  [0x00, 0x00, 0x00, 0x00, 0x00, 0x00, 0x00], -- 0x86
  [0x00, 0x00, 0x00, 0x00, 0x00, 0x00, 0x00], -- 0x87
  [0x00, 0x00, 0x00, 0x00, 0x00, 0x00, 0x00], -- 0x88
  [0x00, 0x00, 0x00, 0x00, 0x00, 0x00, 0x00], -- 0x89
  [0x00, 0x00, 0x00, 0x00, 0x00, 0x00, 0x00], -- 0x8a
  [0x00, 0x00, 0x00, 0x00, 0x00, 0x00, 0x00], -- 0x8b
  [0x00, 0x00, 0x00, 0x00, 0x00, 0x00, 0x00], -- 0x8c
  [0x00, 0x00, 0x00, 0x00, 0x00, 0x00, 0x00], -- 0x8d
  [0x00, 0x00, 0x00, 0x00, 0x00, 0x00, 0x00], -- 0x8e
  [0x00, 0x00, 0x00, 0x00, 0x00, 0x00, 0x00], -- 0x8f
  [0x00, 0x00, 0x00, 0x00, 0x00, 0x00, 0x00], -- 0x90
  [0x00, 0x00, 0x00, 0x00, 0x00, 0x00, 0x00], -- 0x91
  [0x00, 0x00, 0x00, 0x00, 0x00, 0x00, 0x00], -- 0x92
  [0x00, 0x00, 0x00, 0x00, 0x00, 0x00, 0x00], -- 0x93
  [0x00, 0x00, 0x00, 0x00, 0x00, 0x00, 0x00], -- 0x94
  [0x00, 0x00, 0x00, 0x00, 0x00, 0x00, 0x00], -- 0x95
  [0x00, 0x00, 0x00, 0x00, 0x00, 0x00, 0x00], -- 0x96
  [0x00, 0x00, 0x00, 0x00, 0x00, 0x00, 0x00], -- 0x97
  [0x00, 0x00, 0x00, 0x00, 0x00, 0x00, 0x00], -- 0x98
  [0x00, 0x00, 0x00, 0x00, 0x00, 0x00, 0x00], -- 0x99
  [0x00, 0x00, 0x00, 0x00, 0x00, 0x00, 0x00], -- 0x9a
  [0x00, 0x00, 0x00, 0x00, 0x00, 0x00, 0x00], -- 0x9b
  [0x00, 0x00, 0x00, 0x00, 0x00, 0x00, 0x00], -- 0x9c
  [0x00, 0x00, 0x00, 0x00, 0x00, 0x00, 0x00], -- 0x9d
  [0x00, 0x00, 0x00, 0x00, 0x00, 0x00, 0x00], -- 0x9e
  [0x00, 0x00, 0x00, 0x00, 0x00, 0x00, 0x00], -- 0x9f
  [0x00, 0x00, 0x00, 0x00, 0x00, 0x00, 0x00], -- 0xa0
  [0x00, 0x00, 0x00, 0x00, 0x00, 0x00, 0x00], -- 0xa1
  [0x00, 0x00, 0x00, 0x00, 0x00, 0x00, 0x00], -- 0xa2
  [0x00, 0x00, 0x00, 0x00, 0x00, 0x00, 0x00], -- 0xa3
  [0x00, 0x00, 0x00, 0x00, 0x00, 0x00, 0x00], -- 0xa4
  [0x00, 0x00, 0x00, 0x00, 0x00, 0x00, 0x00], -- 0xa5
  [0x00, 0x00, 0x00, 0x00, 0x00, 0x00, 0x00], -- 0xa6
  [0x00, 0x00, 0x00, 0x00, 0x00, 0x00, 0x00], -- 0xa7
  [0x00, 0x00, 0x00, 0x00, 0x00, 0x00, 0x00], -- 0xa8
  [0x00, 0x00, 0x00, 0x00, 0x00, 0x00, 0x00], -- 0xa9
  [0x00, 0x00, 0x00, 0x00, 0x00, 0x00, 0x00], -- 0xaa
  [0x00, 0x00, 0x00, 0x00, 0x00, 0x00, 0x00], -- 0xab
  [0x00, 0x00, 0x00, 0x00, 0x00, 0x00, 0x00], -- 0xac
  [0x00, 0x00, 0x00, 0x00, 0x00, 0x00, 0x00], -- 0xad
  [0x00, 0x00, 0x00, 0x00, 0x00, 0x00, 0x00], -- 0xae
  [0x00, 0x00, 0x00, 0x00, 0x00, 0x00, 0x00], -- 0xaf
  [0x00, 0x00, 0x00, 0x00, 0x00, 0x00, 0x00], -- 0xb0
  [0x00, 0x00, 0x00, 0x00, 0x00, 0x00, 0x00], -- 0xb1
  [0x00, 0x00, 0x00, 0x00, 0x00, 0x00, 0x00], -- 0xb2
  [0x00, 0x00, 0x00, 0x00, 0x00, 0x00, 0x00], -- 0xb3
  [0x00, 0x00, 0x00, 0x00, 0x00, 0x00, 0x00], -- 0xb4
  [0x00, 0x00, 0x00, 0x00, 0x00, 0x00, 0x00], -- 0xb5
  [0x00, 0x00, 0x00, 0x00, 0x00, 0x00, 0x00], -- 0xb6
  [0x00, 0x00, 0x00, 0x00, 0x00, 0x00, 0x00], -- 0xb7
  [0x00, 0x00, 0x00, 0x00, 0x00, 0x00, 0x00], -- 0xb8
  [0x00, 0x00, 0x00, 0x00, 0x00, 0x00, 0x00], -- 0xb9
  [0x00, 0x00, 0x00, 0x00, 0x00, 0x00, 0x00], -- 0xba
  [0x00, 0x00, 0x00, 0x00, 0x00, 0x00, 0x00], -- 0xbb
  [0x00, 0x00, 0x00, 0x00, 0x00, 0x00, 0x00], -- 0xbc
  [0x00, 0x00, 0x00, 0x00, 0x00, 0x00, 0x00], -- 0xbd
  [0x00, 0x00, 0x00, 0x00, 0x00, 0x00, 0x00], -- 0xbe
  [0x00, 0x00, 0x00, 0x00, 0x00, 0x00, 0x00], -- 0xbf
  [0x00, 0x00, 0x00, 0x00, 0x00, 0x00, 0x00], -- 0xc0
  [0x00, 0x00, 0x00, 0x00, 0x00, 0x00, 0x00], -- 0xc1
  [0x00, 0x00, 0x00, 0x00, 0x00, 0x00, 0x00], -- 0xc2
  [0x00, 0x00, 0x00, 0x00, 0x00, 0x00, 0x00], -- 0xc3
  [0x00, 0x00, 0x00, 0x00, 0x00, 0x00, 0x00], -- 0xc4
  [0x00, 0x00, 0x00, 0x00, 0x00, 0x00, 0x00], -- 0xc5
  [0x00, 0x00, 0x00, 0x00, 0x00, 0x00, 0x00], -- 0xc6
  [0x00, 0x00, 0x00, 0x00, 0x00, 0x00, 0x00], -- 0xc7
  [0x00, 0x00, 0x00, 0x00, 0x00, 0x00, 0x00], -- 0xc8
  [0x00, 0x00, 0x00, 0x00, 0x00, 0x00, 0x00], -- 0xc9
  [0x00, 0x00, 0x00, 0x00, 0x00, 0x00, 0x00], -- 0xca
  [0x00, 0x00, 0x00, 0x00, 0x00, 0x00, 0x00], -- 0xcb
  [0x00, 0x00, 0x00, 0x00, 0x00, 0x00, 0x00], -- 0xcc
  [0x00, 0x00, 0x00, 0x00, 0x00, 0x00, 0x00], -- 0xcd
  [0x00, 0x00, 0x00, 0x00, 0x00, 0x00, 0x00], -- 0xce
  [0x00, 0x00, 0x00, 0x00, 0x00, 0x00, 0x00], -- 0xcf
  [0x00, 0x00, 0x00, 0x00, 0x00, 0x00, 0x00], -- 0xd0
  [0x00, 0x00, 0x00, 0x00, 0x00, 0x00, 0x00], -- 0xd1
  [0x00, 0x00, 0x00, 0x00, 0x00, 0x00, 0x00], -- 0xd2
  [0x00, 0x00, 0x00, 0x00, 0x00, 0x00, 0x00], -- 0xd3
  [0x00, 0x00, 0x00, 0x00, 0x00, 0x00, 0x00], -- 0xd4
  [0x00, 0x00, 0x00, 0x00, 0x00, 0x00, 0x00], -- 0xd5
  [0x00, 0x00, 0x00, 0x00, 0x00, 0x00, 0x00], -- 0xd6
  [0x00, 0x00, 0x00, 0x00, 0x00, 0x00, 0x00], -- 0xd7
  [0x00, 0x00, 0x00, 0x00, 0x00, 0x00, 0x00], -- 0xd8
  [0x00, 0x00, 0x00, 0x00, 0x00, 0x00, 0x00], -- 0xd9
  [0x00, 0x00, 0x00, 0x00, 0x00, 0x00, 0x00], -- 0xda
  [0x00, 0x00, 0x00, 0x00, 0x00, 0x00, 0x00], -- 0xdb
  [0x00, 0x00, 0x00, 0x00, 0x00, 0x00, 0x00], -- 0xdc
  [0x00, 0x00, 0x00, 0x00, 0x00, 0x00, 0x00], -- 0xdd
  [0x00, 0x00, 0x00, 0x00, 0x00, 0x00, 0x00], -- 0xde
  [0x00, 0x00, 0x00, 0x00, 0x00, 0x00, 0x00], -- 0xdf
  [0x00, 0x00, 0x00, 0x00, 0x00, 0x00, 0x00], -- 0xe0
  [0x00, 0x00, 0x00, 0x00, 0x00, 0x00, 0x00], -- 0xe1
  [0x00, 0x00, 0x00, 0x00, 0x00, 0x00, 0x00], -- 0xe2
  [0x00, 0x00, 0x00, 0x00, 0x00, 0x00, 0x00], -- 0xe3
  [0x00, 0x00, 0x00, 0x00, 0x00, 0x00, 0x00], -- 0xe4
  [0x00, 0x00, 0x00, 0x00, 0x00, 0x00, 0x00], -- 0xe5
  [0x00, 0x00, 0x00, 0x00, 0x00, 0x00, 0x00], -- 0xe6
  [0x00, 0x00, 0x00, 0x00, 0x00, 0x00, 0x00], -- 0xe7
  [0x00, 0x00, 0x00, 0x00, 0x00, 0x00, 0x00], -- 0xe8
  [0x00, 0x00, 0x00, 0x00, 0x00, 0x00, 0x00], -- 0xe9
  [0x00, 0x00, 0x00, 0x00, 0x00, 0x00, 0x00], -- 0xea
  [0x00, 0x00, 0x00, 0x00, 0x00, 0x00, 0x00], -- 0xeb
  [0x00, 0x00, 0x00, 0x00, 0x00, 0x00, 0x00], -- 0xec
  [0x00, 0x00, 0x00, 0x00, 0x00, 0x00, 0x00], -- 0xed
  [0x00, 0x00, 0x00, 0x00, 0x00, 0x00, 0x00], -- 0xee
  [0x00, 0x00, 0x00, 0x00, 0x00, 0x00, 0x00], -- 0xef
  [0x00, 0x00, 0x00, 0x00, 0x00, 0x00, 0x00], -- 0xf0
  [0x00, 0x00, 0x00, 0x00, 0x00, 0x00, 0x00], -- 0xf1
  [0x00, 0x00, 0x00, 0x00, 0x00, 0x00, 0x00], -- 0xf2
  [0x00, 0x00, 0x00, 0x00, 0x00, 0x00, 0x00], -- 0xf3
  [0x00, 0x00, 0x00, 0x00, 0x00, 0x00, 0x00], -- 0xf4
  [0x00, 0x00, 0x00, 0x00, 0x00, 0x00, 0x00], -- 0xf5
  [0x00, 0x00, 0x00, 0x00, 0x00, 0x00, 0x00], -- 0xf6
  [0x00, 0x00, 0x00, 0x00, 0x00, 0x00, 0x00], -- 0xf7
  [0x00, 0x00, 0x00, 0x00, 0x00, 0x00, 0x00], -- 0xf8
  [0x00, 0x00, 0x00, 0x00, 0x00, 0x00, 0x00], -- 0xf9
  [0x00, 0x00, 0x00, 0x00, 0x00, 0x00, 0x00], -- 0xfa
  [0x00, 0x00, 0x00, 0x00, 0x00, 0x00, 0x00], -- 0xfb
  [0x00, 0x00, 0x00, 0x00, 0x00, 0x00, 0x00], -- 0xfc
  [0x00, 0x00, 0x00, 0x00, 0x00, 0x00, 0x00], -- 0xfd
  [0x00, 0x00, 0x00, 0x00, 0x00, 0x00, 0x00], -- 0xfe
  [0x00, 0x00, 0x00, 0x00, 0x00, 0x00, 0x00] -- 0xff
]


/-- Indexed read `ascii_tab_5x7_[c][r]` of the font table; `none` stands for a
read outside the bounds of the array. -/
def ascii_tab_5x7_at (c r : Nat) : Option Nat :=
  match ascii_tab_5x7_[c]? with
  | some row => row[r]?
  | none => none

/-- The all-blank bitmap: seven rows without ink. -/
def blank_symbol : List Nat := [0x00, 0x00, 0x00, 0x00, 0x00, 0x00, 0x00]

/-- Type of `static rgb888_pixel_t frame_buffer[STRIPS_NUMBER][2 * STRIP_LEDS_NUMBER]`:
one pixel for every (strip, column) cell of the fixed grid. -/
abbrev frame_buffer_t : Type :=
  Fin STRIPS_NUMBER → Fin (2 * STRIP_LEDS_NUMBER) → rgb888_pixel_t

/-- Type of `static bool frame_buffer_mask[STRIPS_NUMBER][STRIP_LEDS_NUMBER]`. -/
abbrev frame_buffer_mask_t : Type :=
  Fin STRIPS_NUMBER → Fin STRIP_LEDS_NUMBER → Bool

/-- The static data members of `display_driver` that a render call mutates. -/
structure driver_t where
  frame_buffer : frame_buffer_t
  frame_buffer_mask : frame_buffer_mask_t

/-- Static storage before the first render: default pixels and a cleared mask. -/
def driver_start : driver_t :=
  { frame_buffer := fun _ _ => {}, frame_buffer_mask := fun _ _ => false }

/-! ## Colour converter -/

/-- Modelled from the spec: the header declares `rgb565_to_rgb888` without a
body. Section 4.2 allows two ways to widen a field to 8 bits, left shift with
bit replication or multiplication; both are kept. -/
inductive rescale_t where
  | bit_replicate
  | multiply
deriving DecidableEq, Repr

/-- Modelled from the spec: widening of one colour field of `bits` bits (5 or
6) to 8 bits, missing from the header together with `rgb565_to_rgb888`. -/
def rescale (m : rescale_t) (bits v : Nat) : Nat :=
  match m with
  | .bit_replicate => (v <<< (8 - bits)) ||| (v >>> (2 * bits - 8))
  | .multiply => v * 255 / (2 ^ bits - 1)

/-- Modelled from the spec: the red field of an RGB565 colour, its top 5 bits
(the body of `rgb565_to_rgb888` is missing). -/
def red_field (rgb_565_color : Nat) : Nat := (rgb_565_color >>> 11) &&& 0x1F

/-- Modelled from the spec: the green field of an RGB565 colour, its middle 6
bits (the body of `rgb565_to_rgb888` is missing). -/
def green_field (rgb_565_color : Nat) : Nat := (rgb_565_color >>> 5) &&& 0x3F

/-- Modelled from the spec: the blue field of an RGB565 colour, its low 5 bits
(the body of `rgb565_to_rgb888` is missing). -/
def blue_field (rgb_565_color : Nat) : Nat := rgb_565_color &&& 0x1F

/-- Modelled from the spec: `rgb565_to_rgb888`, declared in the header without
a body. Each field of the 5:6:5 colour is widened to 8 bits on its own. -/
def rgb565_to_rgb888 (m : rescale_t) (rgb_565_color : Nat) : rgb888_pixel_t :=
  { red := rescale m 5 (red_field rgb_565_color)
    green := rescale m 6 (green_field rgb_565_color)
    blue := rescale m 5 (blue_field rgb_565_color) }

/-! ## Text composer -/

/-- Modelled from the spec: which byte of a holding register is the earlier
symbol. Section 4.5 fixes only that the split is the same for every word, so
both orders are kept (`Extract_symbols_from_holding_regs` has no body). -/
inductive byte_order_t where
  | high_first
  | low_first
deriving DecidableEq, Repr

/-- Modelled from the spec: the two 8-bit codes of one 16-bit word, earlier
symbol first (the body of `Extract_symbols_from_holding_regs` is missing). -/
def split_word (o : byte_order_t) (w : Nat) : Nat × Nat :=
  match o with
  | .high_first => ((w >>> 8) % 256, w % 256)
  | .low_first => (w % 256, (w >>> 8) % 256)

/-- Modelled from the spec: `Extract_symbols_from_holding_regs`, declared in
the header without a body. The words are visited in order and word `i` fills
the symbols `2 * i` and `2 * i + 1` of the six-symbol output array. -/
def Extract_symbols_from_holding_regs (o : byte_order_t) (aText : Fin 3 → Nat) : List Nat :=
  (List.finRange 3).foldl
    (fun aSymbols i =>
      (aSymbols.set (2 * i.val) (split_word o (aText i)).1).set (2 * i.val + 1)
        (split_word o (aText i)).2)
    (List.replicate 6 0)

/-- Modelled from the spec: the producer side of the payload, owned by the
register collaborator and absent from the repository. Two codes are packed
into one word in the byte order `o`. -/
def pack_word (o : byte_order_t) (first second : Nat) : Nat :=
  match o with
  | .high_first => first * 256 + second
  | .low_first => second * 256 + first

/-- Modelled from the spec: the 3-word payload that encodes a text, padded
with spaces (0x20) to 6 symbols; the encoder is not part of the repository. -/
def encode_text (o : byte_order_t) (text : List Nat) : Fin 3 → Nat :=
  fun i => pack_word o (text.getD (2 * i.val) 0x20) (text.getD (2 * i.val + 1) 0x20)

/-! ## Display updater -/

/-- Modelled from the spec: an example of the wiring table of section 4.6,
serpentine strips where even strips ascend and odd strips descend. The
columns past `STRIP_LEDS_NUMBER` have no LED. The table is not in the header. -/
def serpentine (strip column : Nat) : Option Nat :=
  if column < STRIP_LEDS_NUMBER then
    some (strip * STRIP_LEDS_NUMBER +
      (if strip % 2 = 0 then column else STRIP_LEDS_NUMBER - 1 - column))
  else none

/-- Modelled from the spec: one bounds-checked write of a logical cell into
the outgoing pixel sequence, at the physical LED index of the cell (part of
the missing body of `Update_display_from_frame_buffer`). -/
def emit_cell (out : List rgb888_pixel_t) (led : Option Nat) (px : rgb888_pixel_t) :
    List rgb888_pixel_t :=
  match led with
  | some p => if p < out.length then out.set p px else out
  | none => out

/-- Modelled from the spec: `Update_display_from_frame_buffer`, declared in
the header without a body. The frame buffer is walked in logical (strip,
column) order and every cell is written to the physical LED index that the
wiring table `remap` gives; the result is the sequence handed to the strip
transmitter, one pixel per physical LED. -/
def Update_display_from_frame_buffer (remap : Nat → Nat → Option Nat) (fb : frame_buffer_t) :
    List rgb888_pixel_t :=
  (List.finRange STRIPS_NUMBER).foldl
    (fun out strip =>
      (List.finRange (2 * STRIP_LEDS_NUMBER)).foldl
        (fun out column => emit_cell out (remap strip.val column.val) (fb strip column))
        out)
    (List.replicate (STRIPS_NUMBER * STRIP_LEDS_NUMBER) {})

/-! ## Glyph rasterizer and render entry point -/

/-- Modelled from the spec: the status of a render call, after the error
taxonomy of section 7 (the header names the type `esp_err_t`, which is not
declared in the repository). A transmission failure carries the code of the
strip transmitter verbatim. -/
inductive status_t where
  | ok
  | invalid_position
  | transmission_failure (code : Int)
deriving DecidableEq, Repr

/-- Modelled from the spec: what the render path needs from outside and the
spec leaves open: the column origin of every symbol position, the ink colour,
the wiring table and the strip transmitter (`none` is success). -/
structure board_t where
  slot_origin : Nat → Nat
  foreground : rgb888_pixel_t
  remap : Nat → Nat → Option Nat
  transmit : List rgb888_pixel_t → Option Int

/-- Modelled from the spec: ink bit of a glyph at bitmap row `row` and column
`column` (0 is the leftmost of the 5 columns, stored in bit 4 of the row
byte); the rasterizer has no body in the header. -/
def glyph_bit (aSymbol row column : Nat) : Bool :=
  match ascii_tab_5x7_at aSymbol row with
  | some b => b.testBit (4 - column)
  | none => false

/-- Modelled from the spec: whether the cell (strip, column) is ink of the
symbol placed in the slot that starts at column `origin` (part of the missing
body of `Set_frame_buffer_mask`). -/
def slot_ink (origin aSymbol strip column : Nat) : Bool :=
  decide (origin ≤ column) && decide (column < origin + 5) &&
    glyph_bit aSymbol strip (column - origin)

/-- Modelled from the spec: `Set_frame_buffer_mask`, the paint step of section
4.3, declared in the header without a body. The mask is derived afresh for the
placed symbol and every ink cell takes the foreground colour. -/
def Set_frame_buffer_mask (hw : board_t) (st : driver_t) (aSymbol aPosition : Nat) : driver_t :=
  { frame_buffer := fun strip column =>
      if column.val < STRIP_LEDS_NUMBER ∧
          slot_ink (hw.slot_origin aPosition) aSymbol strip.val column.val = true then
        hw.foreground
      else st.frame_buffer strip column
    frame_buffer_mask := fun strip column =>
      slot_ink (hw.slot_origin aPosition) aSymbol strip.val column.val }

/-- Modelled from the spec: `Fill_frame_buffer`, declared in the header without
a body. Every cell that the mask does not mark as ink takes the background
colour; ink cells are kept. -/
def Fill_frame_buffer (st : driver_t) (aColor : rgb888_pixel_t) : driver_t :=
  { st with
    frame_buffer := fun strip column =>
      if h : column.val < STRIP_LEDS_NUMBER then
        (if st.frame_buffer_mask strip ⟨column.val, h⟩ = true then st.frame_buffer strip column
         else aColor)
      else aColor }

/-- Modelled from the spec: `Display_symbol`, declared in the header without a
body. A position outside 1..6 is rejected before any mutation; otherwise the
glyph is painted, the background is filled, the frame buffer is flushed and
the outcome of the transmitter is reported. -/
def Display_symbol (hw : board_t) (st : driver_t) (aSymbol : Nat) (aColor : rgb888_pixel_t)
    (aPosition : Nat) : status_t × driver_t :=
  if 1 ≤ aPosition ∧ aPosition ≤ 6 then
    let painted := Set_frame_buffer_mask hw st aSymbol aPosition
    let filled := Fill_frame_buffer painted aColor
    match hw.transmit (Update_display_from_frame_buffer hw.remap filled.frame_buffer) with
    | none => (status_t.ok, filled)
    | some code => (status_t.transmission_failure code, filled)
  else (status_t.invalid_position, st)

/-- Modelled from the spec: an example of the board parameters that the spec
leaves open, with slots of 6 columns from column 0, red ink, serpentine wiring
and a transmitter that always succeeds. -/
def board_example : board_t :=
  { slot_origin := fun p => 6 * (p - 1)
    foreground := { red := 255, green := 0, blue := 0 }
    remap := serpentine
    transmit := fun _ => none }

/-! ## Font table -/

/-- The font table has one entry for every 8-bit symbol code. -/
theorem ascii_tab_length : ascii_tab_5x7_.length = 256 := by
  decide

/-- Every entry of the font table has seven rows. -/
theorem ascii_tab_row_length : ∀ row ∈ ascii_tab_5x7_, row.length = 7 := by
  decide

/-- The 96 entries for the codes 0x20..0x7F hold no bitmap twice. -/
theorem defined_glyphs_nodup : ((ascii_tab_5x7_.drop 0x20).take 0x60).Nodup := by
  decide

/-- An entry of the defined range, read through the window 0x20..0x7F. -/
theorem defined_glyphs_getElem? (c : Nat) (hlo : 0x20 ≤ c) (hhi : c ≤ 0x7F) :
    ((ascii_tab_5x7_.drop 0x20).take 0x60)[c - 0x20]? = ascii_tab_5x7_[c]? := by
  rw [List.getElem?_take_of_lt (by omega), List.getElem?_drop]
  congr 1
  omega

/-- A read inside the table yields an entry with seven rows. -/
theorem ascii_tab_entry (c : Nat) (hc : c < 256) :
    ∃ row, ascii_tab_5x7_[c]? = some row ∧ row.length = 7 := by
  have hlen : c < ascii_tab_5x7_.length := by rw [ascii_tab_length]; exact hc
  refine ⟨ascii_tab_5x7_[c], List.getElem?_eq_getElem hlen, ?_⟩
  exact ascii_tab_row_length _ (List.getElem_mem hlen)

/-- The row read of an entry that is present is the read of its list. -/
theorem ascii_tab_5x7_at_of_entry {c : Nat} {row : List Nat}
    (h : ascii_tab_5x7_[c]? = some row) (r : Nat) : ascii_tab_5x7_at c r = row[r]? := by
  unfold ascii_tab_5x7_at
  rw [h]

/-- C1: every symbol code in 0..255 outside 0x20..0x7F has the all-blank
bitmap as its font table entry: all 7 row bytes are 0x00. -/
theorem ascii_tab_blank_outside_defined_range (c : Nat) (hc : c < 256)
    (hout : c < 0x20 ∨ 0x7F < c) :
    ascii_tab_5x7_[c]? = some blank_symbol ∧
      ∀ r, r < 7 → ascii_tab_5x7_at c r = some 0x00 := by
  revert c
  decide

/-- Witness of C1 at the first code of the extended range, 0x80. -/
theorem ascii_tab_blank_outside_defined_range_witness :
    ascii_tab_5x7_[0x80]? = some blank_symbol ∧
      ∀ r, r < 7 → ascii_tab_5x7_at 0x80 r = some 0x00 :=
  ascii_tab_blank_outside_defined_range 0x80 (by decide) (by decide)

/-- C2: font lookup is total. The table has exactly 256 entries, every entry
has exactly 7 rows, and for every symbol code in 0..255 and row in 0..6 the
indexed read is in bounds and yields a byte. -/
theorem ascii_tab_lookup_total :
    ascii_tab_5x7_.length = 256 ∧
      (∀ row ∈ ascii_tab_5x7_, row.length = 7) ∧
      ∀ c, c < 256 → ∀ r, r < 7 → ∃ b, ascii_tab_5x7_at c r = some b ∧ b < 256 := by
  decide

/-- Witness of C2 at row 3 of the letter A (0x41). -/
theorem ascii_tab_lookup_total_witness :
    ∃ b, ascii_tab_5x7_at 0x41 3 = some b ∧ b < 256 :=
  ascii_tab_lookup_total.2.2 0x41 (by decide) 3 (by decide)

/-- C3: every glyph is at most 5 columns wide. For every symbol code in 0..255
and row in 0..6 the row byte is at most 0x1F, so bits 5, 6 and 7 are zero. -/
theorem ascii_tab_rows_use_low_five_bits :
    ∀ c, c < 256 → ∀ r, r < 7 →
      ∃ b, ascii_tab_5x7_at c r = some b ∧ b ≤ 0x1F ∧ b &&& 0xE0 = 0 := by
  decide

/-- Witness of C3 at the bottom row of the letter L (0x4C), the full row 0x1F. -/
theorem ascii_tab_rows_use_low_five_bits_witness :
    ∃ b, ascii_tab_5x7_at 0x4C 6 = some b ∧ b ≤ 0x1F ∧ b &&& 0xE0 = 0 :=
  ascii_tab_rows_use_low_five_bits 0x4C (by decide) 6 (by decide)

/-- C4: the font table holds a glyph for every code from 0x20 to 0x7F. Every
code in 0x21..0x7F has a row with ink, the entry for 0x20 (space) is blank,
and an entry is blank exactly when its code is 0x20 or outside 0x20..0x7F. -/
theorem ascii_tab_defined_range :
    (∀ c, c < 256 → 0x21 ≤ c → c ≤ 0x7F →
        ∃ r, r < 7 ∧ ∃ b, ascii_tab_5x7_at c r = some b ∧ b ≠ 0) ∧
      ascii_tab_5x7_[0x20]? = some blank_symbol ∧
      ∀ c, c < 256 →
        (ascii_tab_5x7_[c]? = some blank_symbol ↔ (c = 0x20 ∨ c < 0x20 ∨ 0x7F < c)) := by
  decide

/-- Witness of C4 at the check mark, the last defined code 0x7F. -/
theorem ascii_tab_defined_range_witness :
    (∃ r, r < 7 ∧ ∃ b, ascii_tab_5x7_at 0x7F r = some b ∧ b ≠ 0) ∧
      (ascii_tab_5x7_[0x7F]? = some blank_symbol ↔
        ((0x7F : Nat) = 0x20 ∨ (0x7F : Nat) < 0x20 ∨ (0x7F : Nat) < 0x7F)) :=
  ⟨ascii_tab_defined_range.1 0x7F (by decide) (by decide) (by decide),
    ascii_tab_defined_range.2.2 0x7F (by decide)⟩

/-- C10: glyphs of the defined range are pairwise distinct. Two different
symbol codes in 0x20..0x7F have different bitmaps, and the bitmaps differ in
at least one of the rows 0..6. -/
theorem defined_glyphs_pairwise_distinct (a b : Nat) (ha : 0x20 ≤ a ∧ a ≤ 0x7F)
    (hb : 0x20 ≤ b ∧ b ≤ 0x7F) (hab : a ≠ b) :
    ascii_tab_5x7_[a]? ≠ ascii_tab_5x7_[b]? ∧
      ∃ r, r < 7 ∧ ascii_tab_5x7_at a r ≠ ascii_tab_5x7_at b r := by
  obtain ⟨ra, hra, hla⟩ := ascii_tab_entry a (by omega)
  obtain ⟨rb, hrb, hlb⟩ := ascii_tab_entry b (by omega)
  have hne : ra ≠ rb := by
    intro heq
    have hwa := defined_glyphs_getElem? a ha.1 ha.2
    have hwb := defined_glyphs_getElem? b hb.1 hb.2
    have hlen : ((ascii_tab_5x7_.drop 0x20).take 0x60).length = 0x60 := by
      simp [ascii_tab_length]
    have hia : a - 0x20 < ((ascii_tab_5x7_.drop 0x20).take 0x60).length := by omega
    have hib : b - 0x20 < ((ascii_tab_5x7_.drop 0x20).take 0x60).length := by omega
    have hsame : ((ascii_tab_5x7_.drop 0x20).take 0x60)[a - 0x20] =
        ((ascii_tab_5x7_.drop 0x20).take 0x60)[b - 0x20] := by
      have h1 := List.getElem?_eq_getElem hia
      have h2 := List.getElem?_eq_getElem hib
      rw [hwa, hra] at h1
      rw [hwb, hrb] at h2
      have h3 : some ra = some rb := by rw [heq]
      rw [h1, h2] at h3
      exact Option.some.inj h3
    have hidx := (defined_glyphs_nodup.getElem_inj_iff).1 hsame
    omega
  refine ⟨?_, ?_⟩
  · rw [hra, hrb]
    intro h
    exact hne (Option.some.inj h)
  · by_contra hall
    push_neg at hall
    apply hne
    apply List.ext_getElem (by rw [hla, hlb])
    intro n h1 h2
    have hn : n < 7 := by omega
    have h := hall n hn
    rw [ascii_tab_5x7_at_of_entry hra, ascii_tab_5x7_at_of_entry hrb,
      List.getElem?_eq_getElem h1, List.getElem?_eq_getElem h2] at h
    exact Option.some.inj h

/-- Witness of C10 at the letter G (0x47) and the digit 7 (0x37). -/
theorem defined_glyphs_pairwise_distinct_witness :
    ascii_tab_5x7_[0x47]? ≠ ascii_tab_5x7_[0x37]? ∧
      ∃ r, r < 7 ∧ ascii_tab_5x7_at 0x47 r ≠ ascii_tab_5x7_at 0x37 r :=
  defined_glyphs_pairwise_distinct 0x47 0x37 (by decide) (by decide) (by decide)

/-! ## Frame buffer -/

/-- C5: the frame buffer is a fixed grid of STRIPS_NUMBER = 7 rows by
2 * STRIP_LEDS_NUMBER = 72 columns of pixels (504 cells), the mask a fixed grid
of 7 rows by STRIP_LEDS_NUMBER = 36 booleans (252 cells), and a default pixel
has red = green = blue = 0. -/
theorem frame_buffer_shape :
    STRIPS_NUMBER = 7 ∧ STRIP_LEDS_NUMBER = 36 ∧
      frame_buffer_t = (Fin 7 → Fin 72 → rgb888_pixel_t) ∧
      frame_buffer_mask_t = (Fin 7 → Fin 36 → Bool) ∧
      Fintype.card (Fin STRIPS_NUMBER × Fin (2 * STRIP_LEDS_NUMBER)) = 504 ∧
      Fintype.card (Fin STRIPS_NUMBER × Fin STRIP_LEDS_NUMBER) = 252 ∧
      ({} : rgb888_pixel_t) = { red := 0, green := 0, blue := 0 } ∧
      (∀ strip column, driver_start.frame_buffer strip column =
        { red := 0, green := 0, blue := 0 }) := by
  refine ⟨rfl, rfl, rfl, rfl, ?_, ?_, rfl, fun _ _ => rfl⟩
  · rw [Fintype.card_prod, Fintype.card_fin, Fintype.card_fin]
    rfl
  · rw [Fintype.card_prod, Fintype.card_fin, Fintype.card_fin]
    rfl

/-! ## Display updater -/

/-- A write of one cell keeps the length of the outgoing sequence. -/
theorem emit_cell_length (out : List rgb888_pixel_t) (led : Option Nat) (px : rgb888_pixel_t) :
    (emit_cell out led px).length = out.length := by
  unfold emit_cell
  cases led with
  | none => rfl
  | some p =>
    by_cases h : p < out.length
    · simp [h]
    · simp [h]

/-- A fold of length-preserving steps keeps the length of its accumulator. -/
theorem foldl_keeps_length {α β : Type} (f : List β → α → List β)
    (hf : ∀ out a, (f out a).length = out.length) (l : List α) (start : List β) :
    (l.foldl f start).length = start.length := by
  induction l generalizing start with
  | nil => rfl
  | cons a l ih => rw [List.foldl_cons, ih, hf]

/-- C6: the pixel sequence emitted by the flush always has length
STRIPS_NUMBER * STRIP_LEDS_NUMBER, which is 252 and fits the 8-bit type of the
constants without wrap-around, for every frame buffer state and wiring. -/
theorem Update_display_from_frame_buffer_length (remap : Nat → Nat → Option Nat)
    (fb : frame_buffer_t) :
    (Update_display_from_frame_buffer remap fb).length = STRIPS_NUMBER * STRIP_LEDS_NUMBER ∧
      STRIPS_NUMBER * STRIP_LEDS_NUMBER = 252 ∧
      (STRIPS_NUMBER * STRIP_LEDS_NUMBER) % 2 ^ 8 = 252 := by
  refine ⟨?_, rfl, rfl⟩
  unfold Update_display_from_frame_buffer
  rw [foldl_keeps_length _ _ _ _, List.length_replicate]
  intro out strip
  exact foldl_keeps_length _ (fun o column => emit_cell_length o _ _) _ _

/-! ## Colour converter -/

/-- Bit replication of a 5-bit field is eight times the field plus its top
three bits. -/
theorem rescale_bit_replicate_five :
    ∀ v, v < 32 → rescale rescale_t.bit_replicate 5 v = v * 8 + v / 4 := by
  decide

/-- Bit replication of a 6-bit field is four times the field plus its top two
bits. -/
theorem rescale_bit_replicate_six :
    ∀ v, v < 64 → rescale rescale_t.bit_replicate 6 v = v * 4 + v / 16 := by
  decide

/-- Widening a 5-bit field is monotone for both rescaling algorithms. -/
theorem rescale_five_mono (m : rescale_t) (a b : Nat) (hb : b < 32) (hab : a ≤ b) :
    rescale m 5 a ≤ rescale m 5 b := by
  cases m with
  | bit_replicate =>
    rw [rescale_bit_replicate_five a (by omega), rescale_bit_replicate_five b hb]
    omega
  | multiply =>
    exact Nat.div_le_div_right (Nat.mul_le_mul_right 255 hab)

/-- Widening a 6-bit field is monotone for both rescaling algorithms. -/
theorem rescale_six_mono (m : rescale_t) (a b : Nat) (hb : b < 64) (hab : a ≤ b) :
    rescale m 6 a ≤ rescale m 6 b := by
  cases m with
  | bit_replicate =>
    rw [rescale_bit_replicate_six a (by omega), rescale_bit_replicate_six b hb]
    omega
  | multiply =>
    exact Nat.div_le_div_right (Nat.mul_le_mul_right 255 hab)

/-- The red field has 5 bits. -/
theorem red_field_lt (c : Nat) : red_field c < 32 :=
  Nat.lt_succ_of_le Nat.and_le_right

/-- The green field has 6 bits. -/
theorem green_field_lt (c : Nat) : green_field c < 64 :=
  Nat.lt_succ_of_le Nat.and_le_right

/-- The blue field has 5 bits. -/
theorem blue_field_lt (c : Nat) : blue_field c < 32 :=
  Nat.lt_succ_of_le Nat.and_le_right

/-- C7: rgb565_to_rgb888 is monotonic per channel (a larger-or-equal red,
green or blue field gives a larger-or-equal 8-bit channel) and maps the
extremes exactly, 0 to (0,0,0) and 0xFFFF to (255,255,255), with red taken
from the top 5 bits, green from the middle 6 bits and blue from the low 5
bits. -/
theorem rgb565_to_rgb888_monotone_extremes (m : rescale_t) (x y : Nat) :
    (red_field x ≤ red_field y → (rgb565_to_rgb888 m x).red ≤ (rgb565_to_rgb888 m y).red) ∧
      (green_field x ≤ green_field y →
        (rgb565_to_rgb888 m x).green ≤ (rgb565_to_rgb888 m y).green) ∧
      (blue_field x ≤ blue_field y →
        (rgb565_to_rgb888 m x).blue ≤ (rgb565_to_rgb888 m y).blue) ∧
      rgb565_to_rgb888 m 0 = { red := 0, green := 0, blue := 0 } ∧
      rgb565_to_rgb888 m 0xFFFF = { red := 255, green := 255, blue := 255 } ∧
      (red_field 0xF800 = 0x1F ∧ green_field 0xF800 = 0 ∧ blue_field 0xF800 = 0) ∧
      (red_field 0x07E0 = 0 ∧ green_field 0x07E0 = 0x3F ∧ blue_field 0x07E0 = 0) ∧
      (red_field 0x001F = 0 ∧ green_field 0x001F = 0 ∧ blue_field 0x001F = 0x1F) := by
  refine ⟨fun h => rescale_five_mono m _ _ (red_field_lt y) h,
    fun h => rescale_six_mono m _ _ (green_field_lt y) h,
    fun h => rescale_five_mono m _ _ (blue_field_lt y) h, ?_, ?_, ?_, ?_, ?_⟩
  · cases m <;> decide
  · cases m <;> decide
  · decide
  · decide
  · decide

/-- Witness of C7: mid grey 0x8410 against white 0xFFFF with bit replication. -/
theorem rgb565_to_rgb888_monotone_extremes_witness :
    (rgb565_to_rgb888 rescale_t.bit_replicate 0x8410).red ≤
        (rgb565_to_rgb888 rescale_t.bit_replicate 0xFFFF).red ∧
      (rgb565_to_rgb888 rescale_t.bit_replicate 0x8410).green ≤
        (rgb565_to_rgb888 rescale_t.bit_replicate 0xFFFF).green ∧
      (rgb565_to_rgb888 rescale_t.bit_replicate 0x8410).blue ≤
        (rgb565_to_rgb888 rescale_t.bit_replicate 0xFFFF).blue :=
  ⟨(rgb565_to_rgb888_monotone_extremes rescale_t.bit_replicate 0x8410 0xFFFF).1 (by decide),
    (rgb565_to_rgb888_monotone_extremes rescale_t.bit_replicate 0x8410 0xFFFF).2.1 (by decide),
    (rgb565_to_rgb888_monotone_extremes rescale_t.bit_replicate 0x8410 0xFFFF).2.2.1
      (by decide)⟩

/-! ## Render entry point -/

/-- C8: painting a symbol at a position outside 1..6 (0 and 7 among them)
leaves the frame buffer and the mask unchanged and returns the invalid-position
error; for every position in 1..6 that error is not returned. -/
theorem Display_symbol_invalid_position (hw : board_t) (st : driver_t) (aSymbol : Nat)
    (aColor : rgb888_pixel_t) (aPosition : Nat) :
    (¬ (1 ≤ aPosition ∧ aPosition ≤ 6) →
        (Display_symbol hw st aSymbol aColor aPosition).1 = status_t.invalid_position ∧
          (Display_symbol hw st aSymbol aColor aPosition).1 ≠ status_t.ok ∧
          (Display_symbol hw st aSymbol aColor aPosition).2 = st) ∧
      ((1 ≤ aPosition ∧ aPosition ≤ 6) →
        (Display_symbol hw st aSymbol aColor aPosition).1 ≠ status_t.invalid_position) := by
  constructor
  · intro h
    unfold Display_symbol
    rw [if_neg h]
    exact ⟨rfl, by simp, rfl⟩
  · intro h
    unfold Display_symbol
    rw [if_pos h]
    dsimp only
    cases hw.transmit (Update_display_from_frame_buffer hw.remap
      (Fill_frame_buffer (Set_frame_buffer_mask hw st aSymbol aPosition) aColor).frame_buffer) with
    | none => simp
    | some code => simp

/-- Witness of C8: position 7 is rejected on the example board with the start
state untouched, and position 3 is not rejected. -/
theorem Display_symbol_invalid_position_witness :
    ((Display_symbol board_example driver_start 0x41 { red := 0, green := 0, blue := 255 } 7).1 =
        status_t.invalid_position ∧
      (Display_symbol board_example driver_start 0x41 { red := 0, green := 0, blue := 255 } 7).1 ≠
        status_t.ok ∧
      (Display_symbol board_example driver_start 0x41 { red := 0, green := 0, blue := 255 } 7).2 =
        driver_start) ∧
    (Display_symbol board_example driver_start 0x41 { red := 0, green := 0, blue := 255 } 3).1 ≠
      status_t.invalid_position :=
  ⟨(Display_symbol_invalid_position board_example driver_start 0x41
      { red := 0, green := 0, blue := 255 } 7).1 (by decide),
    (Display_symbol_invalid_position board_example driver_start 0x41
      { red := 0, green := 0, blue := 255 } 3).2 (by decide)⟩

/-! ## Text composer -/

/-- The decoder written out: the two codes of word 0, then of word 1, then of
word 2. -/
theorem Extract_symbols_from_holding_regs_eq (o : byte_order_t) (aText : Fin 3 → Nat) :
    Extract_symbols_from_holding_regs o aText =
      [(split_word o (aText 0)).1, (split_word o (aText 0)).2,
       (split_word o (aText 1)).1, (split_word o (aText 1)).2,
       (split_word o (aText 2)).1, (split_word o (aText 2)).2] :=
  rfl

/-- Both codes of a word are 8-bit values. -/
theorem split_word_lt (o : byte_order_t) (w : Nat) :
    (split_word o w).1 < 256 ∧ (split_word o w).2 < 256 := by
  cases o <;> exact ⟨Nat.mod_lt _ (by decide), Nat.mod_lt _ (by decide)⟩

/-- C9: decoding turns every 3-word payload into exactly 6 symbol codes, two
8-bit codes per 16-bit word with the same byte split for each word and in word
order; on the payload that encodes HELLO followed by a space it yields the
codes of H, E, L, L, O and space in that order. -/
theorem Extract_symbols_from_holding_regs_spec (o : byte_order_t) (aText : Fin 3 → Nat) :
    (Extract_symbols_from_holding_regs o aText).length = 6 ∧
      (∀ i : Fin 3,
        (Extract_symbols_from_holding_regs o aText)[2 * i.val]? =
            some (split_word o (aText i)).1 ∧
          (Extract_symbols_from_holding_regs o aText)[2 * i.val + 1]? =
            some (split_word o (aText i)).2) ∧
      (∀ code ∈ Extract_symbols_from_holding_regs o aText, code < 256) ∧
      Extract_symbols_from_holding_regs o
          (encode_text o (['H', 'E', 'L', 'L', 'O', ' '].map Char.toNat)) =
        ['H', 'E', 'L', 'L', 'O', ' '].map Char.toNat := by
  refine ⟨rfl, ?_, ?_, ?_⟩
  · intro i
    rw [Extract_symbols_from_holding_regs_eq]
    fin_cases i <;> exact ⟨rfl, rfl⟩
  · intro code hcode
    rw [Extract_symbols_from_holding_regs_eq] at hcode
    have h0 := split_word_lt o (aText 0)
    have h1 := split_word_lt o (aText 1)
    have h2 := split_word_lt o (aText 2)
    simp only [List.mem_cons, List.mem_singleton, List.not_mem_nil, or_false] at hcode
    rcases hcode with h | h | h | h | h | h <;> rw [h] <;> omega
  · cases o <;> decide

/-- Witness of C9: every code decoded from the payload 0x4845 0x4C4C 0x4F20,
high byte first, is an 8-bit value; 0x45 is one of them. -/
theorem Extract_symbols_from_holding_regs_spec_witness :
    0x45 ∈ Extract_symbols_from_holding_regs byte_order_t.high_first
        ![0x4845, 0x4C4C, 0x4F20] ∧
      (0x45 : Nat) < 256 :=
  ⟨by decide,
    (Extract_symbols_from_holding_regs_spec byte_order_t.high_first
      ![0x4845, 0x4C4C, 0x4F20]).2.2.1 0x45 (by decide)⟩

end display_driver
